import Mathlib

/-!
Verification development for the `klipper_voice_manager` WebSocket client
(`ws_client.py`).  The definitions below are a shallow embedding of the
client's state, its print-state machine, the partial-status update logic,
the remaining-time cache, the gcode-response mailbox and the lifecycle
guards.  Python floats are modelled as exact rationals (ℚ); Python `None`
becomes `Option.none`; the mutable `PrinterStatus` dataclass becomes an
immutable record threaded through the update functions.
-/

namespace KVM

/-- `UNKNOWN_STR = "—"` from `ws_client.py`. -/
def UNKNOWN_STR : String := "—"

/-- `PrintState.STANDBY.value`. -/
def ST_STANDBY : String := "standby"

/-- `PrintState.PRINTING.value`. -/
def ST_PRINTING : String := "printing"

/-- `PrintState.PAUSED.value`. -/
def ST_PAUSED : String := "paused"

/-- `PrintState.COMPLETE.value`. -/
def ST_COMPLETE : String := "complete"

/-- `PrintState.ERROR.value`. -/
def ST_ERROR : String := "error"

/-- `CompletionState.COMPLETE.value`. -/
def CS_COMPLETE : String := "complete"

/-- `CompletionState.CANCELLED.value`. -/
def CS_CANCELLED : String := "cancelled"

/-- `CompletionState.PENDING.value` (the em-dash placeholder). -/
def CS_PENDING : String := "—"

/-- The `PrinterStatus` dataclass of `ws_client.py`.  The two fields with a
leading underscore in Python (`_last_progress`, `_cached_remaining`) are the
private cache of `_calculate_remaining_time`; Lean names drop the
underscore.  Default values are exactly the dataclass defaults. -/
structure PrinterStatus where
  print_state : String := UNKNOWN_STR
  completion_state : String := UNKNOWN_STR
  progress_percent : Int := 0
  elapsed_time : ℚ := 0
  remaining_time : ℚ := 0
  filament_used : ℚ := 0
  filename : Option String := none
  bed_temp : ℚ := 0
  bed_target : ℚ := 0
  ext_temp : ℚ := 0
  ext_target : ℚ := 0
  fan_percent : ℚ := 0
  gcode_response : Option String := none
  last_progress : Int := -1
  cached_remaining : Option ℚ := none
deriving Repr, DecidableEq

/-- The client-side mutable state touched by `_update_state_machine` and the
status extraction: the `status` record plus the `print_started`,
`manual_reset_active` flags and the `_print_time_announced` boolean (guarded
by its own lock in Python; the lock does not change the value semantics).
`WSClient.__init__` sets `status.completion_state = CompletionState.PENDING.value`,
which is the same string as the dataclass default `UNKNOWN_STR`. -/
structure ClientState where
  status : PrinterStatus := {}
  print_started : Bool := false
  manual_reset_active : Bool := false
  print_time_announced : Bool := false
deriving Repr, DecidableEq

/-- The client state right after `WSClient.__init__`. -/
def initClient : ClientState := {}

/-- `WSClient._update_state_machine` (ws_client.py lines 168–194).
`new_state is None` returns unchanged; otherwise `old_state` is saved,
`status.print_state` is assigned, and the PRINTING / COMPLETE / STANDBY
branches run exactly as in the source.  `set_print_time_announced` is the
lock-guarded setter of `_print_time_announced`. -/
def update_state_machine (c : ClientState) (new_state : Option String) : ClientState :=
  match new_state with
  | none => c
  | some ns =>
    let old_state := c.status.print_state
    let c1 : ClientState := { c with status := { c.status with print_state := ns } }
    if ns = ST_PRINTING then
      let c2 : ClientState :=
        if old_state ≠ ST_PAUSED then { c1 with print_time_announced := false } else c1
      let c3 : ClientState := { c2 with print_started := true, manual_reset_active := false }
      if c3.status.completion_state ≠ CS_PENDING then
        { c3 with status := { c3.status with completion_state := CS_PENDING } }
      else c3
    else if ns = ST_COMPLETE then
      let c2 : ClientState := { c1 with print_time_announced := false }
      if c2.status.completion_state ≠ CS_COMPLETE ∧ c2.status.completion_state ≠ CS_CANCELLED then
        { c2 with print_started := false,
                  status := { c2.status with completion_state := CS_COMPLETE } }
      else c2
    else if ns = ST_STANDBY then
      let c2 : ClientState := { c1 with print_time_announced := false }
      if c2.print_started then
        { c2 with print_started := false,
                  status := { c2.status with completion_state := CS_CANCELLED } }
      else c2
    else c1

/-- `WSClient._calculate_remaining_time` (ws_client.py lines 196–211),
acting on the `_last_progress` / `_cached_remaining` cache stored inside
`PrinterStatus`.  Returns the updated record together with the returned
remaining time.  With exact rationals the `progress_percent > 0` guard rules
out the `ZeroDivisionError` that the Python `except` clause catches, so the
function is total. -/
def calculate_remaining_time (st : PrinterStatus) (progress_percent : Int)
    (elapsed_time : ℚ) : PrinterStatus × ℚ :=
  if progress_percent = st.last_progress ∧ st.cached_remaining ≠ none then
    (st, st.cached_remaining.getD 0)
  else
    let st1 : PrinterStatus := { st with last_progress := progress_percent }
    if progress_percent > 0 ∧ elapsed_time > 0 then
      let total_time : ℚ := elapsed_time / ((progress_percent : ℚ) / 100)
      let remaining : ℚ := max 0 (total_time - elapsed_time)
      ({ st1 with cached_remaining := some remaining }, remaining)
    else
      ({ st1 with cached_remaining := some (0 : ℚ) }, 0)

/-- `WSClient._update_status_field` (ws_client.py lines 213–221), generic in
the field's type just as the Python `getattr`/`setattr` version is: a `none`
incoming value leaves the field untouched and reports `false`; a differing
value is written and reports `true`; an equal value is not written and
reports `false`.  Returns the (possibly) new field value and the report. -/
def update_status_field {α : Type} [DecidableEq α] (old : α) (new : Option α) : α × Bool :=
  match new with
  | none => (old, false)
  | some v => if old ≠ v then (v, true) else (old, false)

/-- A JSON-like value as it appears in the `status` payload handed to
`_extract_status_from_message`: nested string-keyed dictionaries whose
leaves are strings or numbers (Python floats/ints, modelled as ℚ). -/
inductive JVal where
  | str (s : String)
  | num (q : ℚ)
  | dict (entries : List (String × JVal))

/-- `dict.get(key)` on a Python dict modelled as an association list. -/
def dictGet (entries : List (String × JVal)) (key : String) : Option JVal :=
  (entries.find? (fun p => p.1 = key)).map Prod.snd

/-- `WSClient._get_nested_value` (ws_client.py lines 148–155) with the
`default=None` used at every call site: walk the keys, and as soon as the
intermediate result is missing or not a dict, return `none`. -/
def get_nested_value : Option JVal → List String → Option JVal
  | r, [] => r
  | some (JVal.dict entries), key :: keys => get_nested_value (dictGet entries key) keys
  | _, _ :: _ => none

/-- View a looked-up payload value as a string (the shape Klipper sends for
`print_stats.state` and `print_stats.filename`). -/
def asStr : Option JVal → Option String
  | some (JVal.str s) => some s
  | _ => none

/-- View a looked-up payload value as a number (the shape Klipper sends for
progress, durations, temperatures and fan speed). -/
def asNum : Option JVal → Option ℚ
  | some (JVal.num q) => some q
  | _ => none

/-- Python `int(q)` on a real number: truncation toward zero. -/
def pyInt (q : ℚ) : Int :=
  if 0 ≤ q then ⌊q⌋ else ⌈q⌉

/-- Python's `round` to the nearest integer: round-half-to-even. -/
def roundHalfEven (q : ℚ) : Int :=
  if q - ⌊q⌋ < 1 / 2 then ⌊q⌋
  else if q - ⌊q⌋ > 1 / 2 then ⌊q⌋ + 1
  else if ⌊q⌋ % 2 = 0 then ⌊q⌋ else ⌊q⌋ + 1

/-- Python `round(q, 1)`: round to one decimal digit, ties to even. -/
def pyRound1 (q : ℚ) : ℚ :=
  (roundHalfEven (10 * q) : ℚ) / 10

/-- `print_stats.state` from a payload, as `_extract_status_from_message`
reads it. -/
def stateOf (sd : JVal) : Option String :=
  asStr (get_nested_value (some sd) ["print_stats", "state"])

/-- The progress fraction: `print_stats.progress`, falling back to
`display_status.progress` when the former is absent (ws_client.py
lines 231–233). -/
def progressOf (sd : JVal) : Option ℚ :=
  match asNum (get_nested_value (some sd) ["print_stats", "progress"]) with
  | none => asNum (get_nested_value (some sd) ["display_status", "progress"])
  | some p => some p

/-- `print_stats.print_duration` from a payload. -/
def elapsedOf (sd : JVal) : Option ℚ :=
  asNum (get_nested_value (some sd) ["print_stats", "print_duration"])

/-- `print_stats.filament_used` from a payload. -/
def filamentOf (sd : JVal) : Option ℚ :=
  asNum (get_nested_value (some sd) ["print_stats", "filament_used"])

/-- `print_stats.filename` from a payload. -/
def filenameOf (sd : JVal) : Option String :=
  asStr (get_nested_value (some sd) ["print_stats", "filename"])

/-- `heater_bed.temperature` from a payload. -/
def bedTempOf (sd : JVal) : Option ℚ :=
  asNum (get_nested_value (some sd) ["heater_bed", "temperature"])

/-- `heater_bed.target` from a payload. -/
def bedTargetOf (sd : JVal) : Option ℚ :=
  asNum (get_nested_value (some sd) ["heater_bed", "target"])

/-- `extruder.temperature` from a payload. -/
def extTempOf (sd : JVal) : Option ℚ :=
  asNum (get_nested_value (some sd) ["extruder", "temperature"])

/-- `extruder.target` from a payload. -/
def extTargetOf (sd : JVal) : Option ℚ :=
  asNum (get_nested_value (some sd) ["extruder", "target"])

/-- `fan.speed` from a payload. -/
def fanSpeedOf (sd : JVal) : Option ℚ :=
  asNum (get_nested_value (some sd) ["fan", "speed"])

/-- The call pattern `changed |= self._update_status_field(f, inc)` used
throughout `_extract_status_from_message`, for a field with getter `get`
and setter `set` on `PrinterStatus`: run `_update_status_field` for that
field and OR its report into the running `changed` flag. -/
def apply_field_update {α : Type} [DecidableEq α]
    (get : PrinterStatus → α) (set : PrinterStatus → α → PrinterStatus)
    (inc : Option α) (cb : ClientState × Bool) : ClientState × Bool :=
  let r := update_status_field (get cb.1.status) inc
  ({ cb.1 with status := set cb.1.status r.1 }, cb.2 || r.2)

/-- Lines 226–229: `if new_state is not None and new_state != print_state:
self._update_state_machine(new_state); changed = True`. -/
def step_state (sd : JVal) (cb : ClientState × Bool) : ClientState × Bool :=
  match stateOf sd with
  | some ns =>
    if ns ≠ cb.1.status.print_state then (update_state_machine cb.1 (some ns), true)
    else cb
  | none => cb

/-- Lines 231–237: fetch the progress fraction (with the display-status
fallback), convert with `int(progress * 100)`, and update
`progress_percent`. -/
def step_progress (sd : JVal) (cb : ClientState × Bool) : ClientState × Bool :=
  match progressOf sd with
  | some p =>
    apply_field_update (fun st => st.progress_percent)
      (fun st v => { st with progress_percent := v })
      (some (pyInt (p * 100))) cb
  | none => cb

/-- Lines 242–247: when something changed or the stored percent no longer
matches the cache key, recompute the remaining time and store it when it
differs. -/
def step_remaining (cb : ClientState × Bool) : ClientState × Bool :=
  let c := cb.1
  if cb.2 = true ∨ c.status.progress_percent ≠ c.status.last_progress then
    let r := calculate_remaining_time c.status c.status.progress_percent c.status.elapsed_time
    let st :=
      if r.2 ≠ r.1.remaining_time then { r.1 with remaining_time := r.2 } else r.1
    ({ c with status := st }, cb.2)
  else cb

/-- Lines 269–272: fetch `fan.speed`, convert with `round(speed * 100, 1)`,
and update `fan_percent`. -/
def step_fan (sd : JVal) (cb : ClientState × Bool) : ClientState × Bool :=
  match fanSpeedOf sd with
  | some f =>
    apply_field_update (fun st => st.fan_percent)
      (fun st v => { st with fan_percent := v })
      (some (pyRound1 (f * 100))) cb
  | none => cb

/-- `WSClient._extract_status_from_message` (ws_client.py lines 223–274):
the straight-line sequence of the source, one named step per statement —
the state-machine call, `progress_percent`, `elapsed_time`, the
remaining-time recomputation, `filament_used`, `filename`, the four
temperatures, and `fan_percent` — threading `(client, changed)` through,
starting from `changed = False`. -/
def extract_status_from_message (c : ClientState) (sd : JVal) : ClientState × Bool :=
  let s1 := step_state sd (c, false)
  let s2 := step_progress sd s1
  let s3 := apply_field_update (fun st => st.elapsed_time)
    (fun st v => { st with elapsed_time := v }) (elapsedOf sd) s2
  let s4 := step_remaining s3
  let s5 := apply_field_update (fun st => st.filament_used)
    (fun st v => { st with filament_used := v }) (filamentOf sd) s4
  let s6 := apply_field_update (fun st => st.filename)
    (fun st v => { st with filename := v }) ((filenameOf sd).map some) s5
  let s7 := apply_field_update (fun st => st.bed_temp)
    (fun st v => { st with bed_temp := v }) (bedTempOf sd) s6
  let s8 := apply_field_update (fun st => st.bed_target)
    (fun st v => { st with bed_target := v }) (bedTargetOf sd) s7
  let s9 := apply_field_update (fun st => st.ext_temp)
    (fun st v => { st with ext_temp := v }) (extTempOf sd) s8
  let s10 := apply_field_update (fun st => st.ext_target)
    (fun st v => { st with ext_target := v }) (extTargetOf sd) s9
  step_fan sd s10

/-- The response-mailbox state of `WSClient`: `shared_status["response"]`
(the current item exposed to consumers), its mirror
`status.gcode_response`, and the overflow FIFO `response_queue`. -/
structure MailboxState where
  shared_response : Option String := none
  gcode_response : Option String := none
  response_queue : List String := []
deriving Repr, DecidableEq

/-- The nested response-template index from the `response` config section:
sections, each mapping a response identifier to its list of template
strings, exactly the shape `_handle_new_response` iterates over. -/
def ResponseCfg : Type := List (String × List (String × List String))

/-- The `matched` flag computed by the nested loops of
`_handle_new_response`: some section has some identifier whose template
list contains `response_text` verbatim. -/
def matchedIn (cfg : ResponseCfg) (response_text : String) : Bool :=
  cfg.any fun sec => sec.2.any fun pat => response_text ∈ pat.2

/-- `WSClient._handle_new_response` (ws_client.py lines 525–545): when the
text matches the template index, either publish it as the current response
(both `shared_status["response"]` and `status.gcode_response`, set together
under the locks) if no current response exists, or append it to
`response_queue`; unmatched text only logs and changes nothing. -/
def handle_new_response (cfg : ResponseCfg) (m : MailboxState)
    (response_text : String) : MailboxState :=
  if matchedIn cfg response_text then
    match m.shared_response with
    | none =>
      { m with shared_response := some response_text,
               gcode_response := some response_text }
    | some _ => { m with response_queue := m.response_queue ++ [response_text] }
  else m

/-- `WSClient.clear_response` (ws_client.py lines 547–554): clear both the
current response and its mirror, then, if the queue is nonempty, pop its
head into both. -/
def clear_response (m : MailboxState) : MailboxState :=
  let m1 : MailboxState := { m with shared_response := none, gcode_response := none }
  match m1.response_queue with
  | [] => m1
  | next :: rest =>
    { shared_response := some next, gcode_response := some next,
      response_queue := rest }

/-- The lifecycle guard flags of `WSClient`: whether `_reconfig_lock` is
held, and the `_is_reconfiguring`, `_is_restarting`,
`_restart_in_progress` booleans. -/
structure LifecycleFlags where
  reconfig_lock_held : Bool := false
  is_reconfiguring : Bool := false
  is_restarting : Bool := false
  restart_in_progress : Bool := false
deriving Repr, DecidableEq

/-- The side effects a lifecycle operation can perform, in order. -/
inductive LifecycleAction where
  | stopClient
  | loadConnectionParams
  | loadWsConfig
  | resetStatus
  | clearMailbox
  | startClient
deriving Repr, DecidableEq

/-- `WSClient.reconfigure` (ws_client.py lines 493–519): a non-blocking
`acquire` on `_reconfig_lock`; when the lock is already held the call
returns at once with no actions; otherwise the body runs
`stop(); _load_connection_params(); _load_ws_config(); start()` and
releases the lock.  Returns the actions performed. -/
def reconfigure (s : LifecycleFlags) : List LifecycleAction :=
  if s.reconfig_lock_held then []
  else
    [LifecycleAction.stopClient, LifecycleAction.loadConnectionParams,
     LifecycleAction.loadWsConfig, LifecycleAction.startClient]

/-- `WSClient.full_restart` (ws_client.py lines 583–639): when
`_is_restarting` is already set the call returns at once with no actions;
otherwise it tears the connection down, reloads both config sections,
resets the status record, clears the response mailbox, and starts again.
Returns the actions performed. -/
def full_restart (s : LifecycleFlags) : List LifecycleAction :=
  if s.is_restarting then []
  else
    [LifecycleAction.stopClient, LifecycleAction.loadConnectionParams,
     LifecycleAction.loadWsConfig, LifecycleAction.resetStatus,
     LifecycleAction.clearMailbox, LifecycleAction.startClient]

/-- The flag state observed while the body of `reconfigure` is executing:
lines 494–499 have acquired `_reconfig_lock` and set
`_is_reconfiguring = True` before any other call can be observed. -/
def midReconfigure (s : LifecycleFlags) : LifecycleFlags :=
  { s with reconfig_lock_held := true, is_reconfiguring := true }

/-- The flag state observed while the body of `full_restart` is executing:
lines 588–591 have set `_is_restarting = True` and
`_restart_in_progress = True`. -/
def midFullRestart (s : LifecycleFlags) : LifecycleFlags :=
  { s with is_restarting := true, restart_in_progress := true }

/-- A store of `PrinterStatus` objects addressed by reference, used to give
meaning to aliasing: `WSClient.status` is a reference into the store, and
`get_state` may return either the same reference or a fresh copy. -/
structure StatusStore where
  objects : List PrinterStatus
deriving Repr, DecidableEq

/-- Dereference: read the object at address `r` (default object when the
address is dangling, which never happens in the scenarios proved below). -/
def readRef (store : StatusStore) (r : Nat) : PrinterStatus :=
  store.objects.getD r {}

/-- Overwrite the object at address `r`. -/
def writeRef (store : StatusStore) (r : Nat) (v : PrinterStatus) : StatusStore :=
  ⟨store.objects.set r v⟩

/-- The references a `WSClient` holds: just the address of its `status`. -/
structure RefClient where
  statusRef : Nat
deriving Repr, DecidableEq

/-- `WSClient.get_state` (ws_client.py lines 556–557): `return self.status`
— the client's own reference is handed out, with no copy made. -/
def get_state (c : RefClient) : Nat :=
  c.statusRef

/-- One client-side mutation after `get_state`, as performed by (e.g.)
`_update_status_field("progress_percent", v)`: write through the client's
own `status` reference. -/
def clientSetProgress (store : StatusStore) (c : RefClient) (v : Int) : StatusStore :=
  writeRef store c.statusRef { readRef store c.statusRef with progress_percent := v }

/-- A one-object store holding a fresh `PrinterStatus`. -/
def store0 : StatusStore := ⟨[{}]⟩

/-- A client whose `status` lives at address 0 of the store. -/
def client0 : RefClient := ⟨0⟩

/-- The status-and-flags reset performed inside `WSClient.stop`
(ws_client.py lines 485–489): `self.status = PrinterStatus()` and
`self.print_started = False`. -/
def stop_reset (c : ClientState) : ClientState :=
  { c with status := {}, print_started := false }

/-- The status-and-flags reset performed inside `WSClient.full_restart`
(ws_client.py lines 622–632): a fresh `PrinterStatus`, cleared
`print_started`, `manual_reset_active` and announced flags, and an emptied
response mailbox. -/
def full_restart_reset (c : ClientState) (_m : MailboxState) :
    ClientState × MailboxState :=
  ({ c with status := { ({} : PrinterStatus) with gcode_response := none },
            print_started := false, manual_reset_active := false,
            print_time_announced := false },
   { shared_response := none, gcode_response := none, response_queue := [] })

/-! ## Helper lemmas about the state machine -/

theorem usm_none (c : ClientState) : update_state_machine c none = c := rfl

theorem usm_print_state (c : ClientState) (ns : String) :
    (update_state_machine c (some ns)).status.print_state = ns := by
  simp only [update_state_machine]
  split_ifs <;> rfl

theorem usm_progress_percent (c : ClientState) (s : Option String) :
    (update_state_machine c s).status.progress_percent = c.status.progress_percent := by
  cases s with
  | none => rfl
  | some ns => simp only [update_state_machine]; split_ifs <;> rfl

theorem usm_elapsed_time (c : ClientState) (s : Option String) :
    (update_state_machine c s).status.elapsed_time = c.status.elapsed_time := by
  cases s with
  | none => rfl
  | some ns => simp only [update_state_machine]; split_ifs <;> rfl

theorem usm_remaining_time (c : ClientState) (s : Option String) :
    (update_state_machine c s).status.remaining_time = c.status.remaining_time := by
  cases s with
  | none => rfl
  | some ns => simp only [update_state_machine]; split_ifs <;> rfl

theorem usm_filament_used (c : ClientState) (s : Option String) :
    (update_state_machine c s).status.filament_used = c.status.filament_used := by
  cases s with
  | none => rfl
  | some ns => simp only [update_state_machine]; split_ifs <;> rfl

theorem usm_filename (c : ClientState) (s : Option String) :
    (update_state_machine c s).status.filename = c.status.filename := by
  cases s with
  | none => rfl
  | some ns => simp only [update_state_machine]; split_ifs <;> rfl

theorem usm_bed_temp (c : ClientState) (s : Option String) :
    (update_state_machine c s).status.bed_temp = c.status.bed_temp := by
  cases s with
  | none => rfl
  | some ns => simp only [update_state_machine]; split_ifs <;> rfl

theorem usm_bed_target (c : ClientState) (s : Option String) :
    (update_state_machine c s).status.bed_target = c.status.bed_target := by
  cases s with
  | none => rfl
  | some ns => simp only [update_state_machine]; split_ifs <;> rfl

theorem usm_ext_temp (c : ClientState) (s : Option String) :
    (update_state_machine c s).status.ext_temp = c.status.ext_temp := by
  cases s with
  | none => rfl
  | some ns => simp only [update_state_machine]; split_ifs <;> rfl

theorem usm_ext_target (c : ClientState) (s : Option String) :
    (update_state_machine c s).status.ext_target = c.status.ext_target := by
  cases s with
  | none => rfl
  | some ns => simp only [update_state_machine]; split_ifs <;> rfl

theorem usm_fan_percent (c : ClientState) (s : Option String) :
    (update_state_machine c s).status.fan_percent = c.status.fan_percent := by
  cases s with
  | none => rfl
  | some ns => simp only [update_state_machine]; split_ifs <;> rfl

theorem usm_last_progress (c : ClientState) (s : Option String) :
    (update_state_machine c s).status.last_progress = c.status.last_progress := by
  cases s with
  | none => rfl
  | some ns => simp only [update_state_machine]; split_ifs <;> rfl

theorem usm_cached_remaining (c : ClientState) (s : Option String) :
    (update_state_machine c s).status.cached_remaining = c.status.cached_remaining := by
  cases s with
  | none => rfl
  | some ns => simp only [update_state_machine]; split_ifs <;> rfl

theorem usm_gcode_response (c : ClientState) (s : Option String) :
    (update_state_machine c s).status.gcode_response = c.status.gcode_response := by
  cases s with
  | none => rfl
  | some ns => simp only [update_state_machine]; split_ifs <;> rfl

/-! ## C1 and C7: the print-state machine -/

/-- C1: a transition into STANDBY while a print had started (`print_started`
records that the machine entered PRINTING and has not completed since) sets
`completion_state = CANCELLED` and clears `print_started`; a transition into
COMPLETE when `completion_state` is not already COMPLETE or CANCELLED sets
it to COMPLETE and clears `print_started`. -/
theorem fsm_standby_cancels_and_complete_completes (c : ClientState) :
    (c.print_started = true →
      (update_state_machine c (some ST_STANDBY)).status.completion_state = CS_CANCELLED ∧
      (update_state_machine c (some ST_STANDBY)).print_started = false) ∧
    (c.status.completion_state ≠ CS_COMPLETE → c.status.completion_state ≠ CS_CANCELLED →
      (update_state_machine c (some ST_COMPLETE)).status.completion_state = CS_COMPLETE ∧
      (update_state_machine c (some ST_COMPLETE)).print_started = false) := by
  constructor
  · intro h
    simp only [update_state_machine]
    split_ifs with h1 h2 h3 h4 <;>
      simp_all [ST_STANDBY, ST_PRINTING, ST_COMPLETE]
  · intro h1 h2
    simp only [update_state_machine]
    split_ifs with g1 g2 g3 g4 <;>
      simp_all [ST_COMPLETE, ST_PRINTING, CS_COMPLETE, CS_CANCELLED]

/-- Witness for C1: from the state reached by entering PRINTING from the
initial state, a STANDBY transition yields CANCELLED, and a COMPLETE
transition yields COMPLETE, clearing `print_started` in both cases. -/
theorem fsm_standby_cancels_and_complete_completes_witness :
    ((update_state_machine (update_state_machine initClient (some ST_PRINTING))
        (some ST_STANDBY)).status.completion_state = CS_CANCELLED ∧
      (update_state_machine (update_state_machine initClient (some ST_PRINTING))
        (some ST_STANDBY)).print_started = false) ∧
    ((update_state_machine (update_state_machine initClient (some ST_PRINTING))
        (some ST_COMPLETE)).status.completion_state = CS_COMPLETE ∧
      (update_state_machine (update_state_machine initClient (some ST_PRINTING))
        (some ST_COMPLETE)).print_started = false) := by
  refine ⟨(fsm_standby_cancels_and_complete_completes _).1 (by decide),
          (fsm_standby_cancels_and_complete_completes _).2 (by decide) (by decide)⟩

/-- C7: entering PRINTING clears the announced flag unless the previous
state was PAUSED (in which case the flag is untouched), always sets
`print_started`, and always forces `completion_state = PENDING`. -/
theorem fsm_entering_printing (c : ClientState) :
    (update_state_machine c (some ST_PRINTING)).print_time_announced
      = (if c.status.print_state = ST_PAUSED then c.print_time_announced else false) ∧
    (update_state_machine c (some ST_PRINTING)).print_started = true ∧
    (update_state_machine c (some ST_PRINTING)).status.completion_state = CS_PENDING := by
  simp only [update_state_machine]
  split_ifs with h1 h2 h3 <;> simp_all [ST_PRINTING]

/-! ## C2: the remaining-time cache -/

/-- C2: `_calculate_remaining_time` returns the cached value when the
percent equals the cache key and a cached value exists; otherwise it
computes `max 0 (elapsed/(percent/100) - elapsed)` when both inputs are
positive and zero in every other case, caching what it returns (the
function is total — the Python `except` path is unreachable with exact
arithmetic); and a second call with the same percent returns the same
state and value no matter what elapsed time it is given. -/
theorem remaining_time_cache_contract (st : PrinterStatus) (p : Int) (e : ℚ) :
    (∀ v, st.cached_remaining = some v → p = st.last_progress →
      calculate_remaining_time st p e = (st, v)) ∧
    ((p ≠ st.last_progress ∨ st.cached_remaining = none) →
      (p > 0 ∧ e > 0 →
        calculate_remaining_time st p e =
          ({ st with last_progress := p,
                     cached_remaining := some (max 0 (e / ((p : ℚ) / 100) - e)) },
           max 0 (e / ((p : ℚ) / 100) - e))) ∧
      (¬(p > 0 ∧ e > 0) →
        calculate_remaining_time st p e =
          ({ st with last_progress := p, cached_remaining := some (0 : ℚ) }, 0))) ∧
    (∀ e2, calculate_remaining_time (calculate_remaining_time st p e).1 p e2
      = calculate_remaining_time st p e) := by
  refine ⟨?_, ?_, ?_⟩
  · intro v hv hp
    simp [calculate_remaining_time, hv, hp]
  · intro hmiss
    have hcond : ¬(p = st.last_progress ∧ st.cached_remaining ≠ none) := by
      rcases hmiss with h | h
      · exact fun hc => h hc.1
      · exact fun hc => hc.2 h
    constructor
    · intro hpos
      simp [calculate_remaining_time, hcond, hpos]
    · intro hneg
      simp [calculate_remaining_time, hcond, hneg]
  · intro e2
    by_cases hcond : p = st.last_progress ∧ st.cached_remaining ≠ none
    · obtain ⟨v, hv⟩ : ∃ v, st.cached_remaining = some v := by
        cases h : st.cached_remaining with
        | none => exact absurd h hcond.2
        | some v => exact ⟨v, rfl⟩
      simp [calculate_remaining_time, hcond.1, hv]
    · by_cases hpos : p > 0 ∧ e > 0
      · simp [calculate_remaining_time, hcond, hpos]
      · simp [calculate_remaining_time, hcond, hpos]

/-- Witness for C2: a fresh status record (empty cache), 50 % progress,
100 s elapsed: the computed and cached remaining time is 100 s, and a
second call with a different elapsed time (999 s) returns the same cached
result. -/
theorem remaining_time_cache_contract_witness :
    calculate_remaining_time ({} : PrinterStatus) 50 100 =
      ({ ({} : PrinterStatus) with last_progress := 50, cached_remaining := some 100 }, 100) ∧
    calculate_remaining_time (calculate_remaining_time ({} : PrinterStatus) 50 100).1 50 999
      = calculate_remaining_time ({} : PrinterStatus) 50 100 := by
  constructor
  · have h := ((remaining_time_cache_contract ({} : PrinterStatus) 50 100).2.1
      (Or.inr rfl)).1 (by norm_num)
    rw [h]
    norm_num
  · exact (remaining_time_cache_contract ({} : PrinterStatus) 50 100).2.2 999

/-! ## C4 and C8: the response mailbox -/

/-- C4: offering matched `a` then matched `b` to an empty mailbox leaves
`a` current (mirrored) with `b` queued; clear-and-advance then makes `b`
current with an empty queue; and in general `clear_response` moves the
oldest pending item into the current slot (or empties it) with the mirror
field set to the same value in the same operation. -/
theorem mailbox_offer_then_advance (cfg : ResponseCfg) (a b : String)
    (ha : matchedIn cfg a = true) (hb : matchedIn cfg b = true) :
    (handle_new_response cfg {} a).shared_response = some a ∧
    (handle_new_response cfg {} a).gcode_response = some a ∧
    (handle_new_response cfg (handle_new_response cfg {} a) b).shared_response = some a ∧
    (handle_new_response cfg (handle_new_response cfg {} a) b).response_queue = [b] ∧
    clear_response (handle_new_response cfg (handle_new_response cfg {} a) b) =
      { shared_response := some b, gcode_response := some b, response_queue := [] } ∧
    (∀ m : MailboxState,
      (clear_response m).gcode_response = (clear_response m).shared_response ∧
      match m.response_queue with
      | [] => (clear_response m).shared_response = none ∧
              (clear_response m).response_queue = []
      | h :: t => (clear_response m).shared_response = some h ∧
                  (clear_response m).response_queue = t) := by
  refine ⟨?_, ?_, ?_, ?_, ?_, ?_⟩
  · simp [handle_new_response, ha]
  · simp [handle_new_response, ha]
  · simp [handle_new_response, ha, hb]
  · simp [handle_new_response, ha, hb]
  · simp [handle_new_response, ha, hb, clear_response]
  · intro m
    cases hq : m.response_queue with
    | nil => simp [clear_response, hq]
    | cons h t => simp [clear_response, hq]

/-- Witness for C4: a concrete template index whose single category accepts
exactly "A" and "B"; offering "A" then "B" and advancing behaves as the
claim states. -/
theorem mailbox_offer_then_advance_witness :
    (handle_new_response [("custom", [("greeting", ["A", "B"])])] {} "A").shared_response
      = some "A" ∧
    (handle_new_response [("custom", [("greeting", ["A", "B"])])]
      (handle_new_response [("custom", [("greeting", ["A", "B"])])] {} "A") "B").response_queue
      = ["B"] ∧
    clear_response (handle_new_response [("custom", [("greeting", ["A", "B"])])]
      (handle_new_response [("custom", [("greeting", ["A", "B"])])] {} "A") "B") =
      { shared_response := some "B", gcode_response := some "B", response_queue := [] } := by
  have h := mailbox_offer_then_advance [("custom", [("greeting", ["A", "B"])])] "A" "B"
    (by decide) (by decide)
  exact ⟨h.1, h.2.2.2.1, h.2.2.2.2.1⟩

/-- C8: offering text that matches no configured template leaves the
mailbox (current item, mirror, and pending queue) completely unchanged. -/
theorem unmatched_text_leaves_mailbox_unchanged (cfg : ResponseCfg)
    (m : MailboxState) (t : String) (h : matchedIn cfg t = false) :
    handle_new_response cfg m t = m := by
  simp [handle_new_response, h]

/-- Witness for C8: the text "nope" is not in the concrete template index,
so offering it to a busy mailbox changes nothing. -/
theorem unmatched_text_leaves_mailbox_unchanged_witness :
    handle_new_response [("custom", [("greeting", ["A", "B"])])]
      { shared_response := some "A", gcode_response := some "A",
        response_queue := ["B"] } "nope" =
      { shared_response := some "A", gcode_response := some "A",
        response_queue := ["B"] } :=
  unmatched_text_leaves_mailbox_unchanged _ _ _ (by decide)

/-! ## C6: lifecycle guard behaviour (corrected) -/

/-- Counterexample to C6 as stated: with a `full_restart` in flight
(`_is_restarting` set, as lines 588–591 leave it), a `reconfigure` call is
not dropped — it performs its full stop/reload/start body, because
`reconfigure` only checks its own `_reconfig_lock`; symmetrically, a
`full_restart` during a `reconfigure` proceeds, because `full_restart`
only checks `_is_restarting`. -/
theorem lifecycle_cross_call_proceeds :
    reconfigure (midFullRestart {}) ≠ [] ∧ full_restart (midReconfigure {}) ≠ [] := by
  decide

/-- C6 amended: each of `reconfigure` and `full_restart` is a no-op when a
call of the *same* operation is in flight (self-exclusion via
`_reconfig_lock` and `_is_restarting` respectively), but the two
operations do not exclude each other: a call to one made while only the
other is in flight performs its full body. -/
theorem lifecycle_self_exclusion_only (s : LifecycleFlags) :
    reconfigure (midReconfigure s) = [] ∧
    full_restart (midFullRestart s) = [] ∧
    reconfigure (midFullRestart {}) =
      [LifecycleAction.stopClient, LifecycleAction.loadConnectionParams,
       LifecycleAction.loadWsConfig, LifecycleAction.startClient] ∧
    full_restart (midReconfigure {}) =
      [LifecycleAction.stopClient, LifecycleAction.loadConnectionParams,
       LifecycleAction.loadWsConfig, LifecycleAction.resetStatus,
       LifecycleAction.clearMailbox, LifecycleAction.startClient] := by
  refine ⟨?_, ?_, by decide, by decide⟩
  · simp [reconfigure, midReconfigure]
  · simp [full_restart, midFullRestart]

/-! ## C3: `get_state` returns the live reference (corrected) -/

/-- Counterexample to C3 as stated: take the snapshot reference returned by
`get_state`, then let the client write a progress update; the write *is*
observable through the previously returned snapshot, because `get_state`
returns `self.status` itself rather than a copy. -/
theorem get_state_mutation_observable :
    (readRef (clientSetProgress store0 client0 50) (get_state client0)).progress_percent
      ≠ (readRef store0 (get_state client0)).progress_percent := by
  decide

/-- C3 amended: `get_state` returns the client's own live `status`
reference (no copy), so client mutations after the call are observable
through a previously returned snapshot, and writing through the returned
reference changes the client's internal status. -/
theorem get_state_returns_live_reference (store : StatusStore) (c : RefClient)
    (v : Int) (w : PrinterStatus) (h : c.statusRef < store.objects.length) :
    get_state c = c.statusRef ∧
    readRef (clientSetProgress store c v) (get_state c)
      = { readRef store c.statusRef with progress_percent := v } ∧
    readRef (writeRef store (get_state c) w) c.statusRef = w := by
  have hread : ∀ (u : PrinterStatus), readRef (writeRef store c.statusRef u) c.statusRef = u := by
    intro u
    simp only [readRef, writeRef]
    rw [List.getD_eq_getElem?_getD, List.getElem?_set_self (by simpa using h)]
    rfl
  exact ⟨rfl, hread _, hread _⟩

/-- Witness for C3's amended theorem: the one-object store. -/
theorem get_state_returns_live_reference_witness :
    get_state client0 = client0.statusRef ∧
    readRef (clientSetProgress store0 client0 50) (get_state client0)
      = { readRef store0 client0.statusRef with progress_percent := 50 } ∧
    readRef (writeRef store0 (get_state client0)
        { ({} : PrinterStatus) with filename := some "x.gcode" }) client0.statusRef
      = { ({} : PrinterStatus) with filename := some "x.gcode" } :=
  get_state_returns_live_reference store0 client0 50
    { ({} : PrinterStatus) with filename := some "x.gcode" } (by decide)

/-! ## Helper lemmas towards C5: what `_extract_status_from_message`
writes and when it reports a change -/

theorem crt_print_state (st : PrinterStatus) (p : Int) (e : ℚ) :
    (calculate_remaining_time st p e).1.print_state = st.print_state := by
  simp only [calculate_remaining_time]; split_ifs <;> rfl

theorem crt_progress_percent (st : PrinterStatus) (p : Int) (e : ℚ) :
    (calculate_remaining_time st p e).1.progress_percent = st.progress_percent := by
  simp only [calculate_remaining_time]; split_ifs <;> rfl

theorem crt_elapsed_time (st : PrinterStatus) (p : Int) (e : ℚ) :
    (calculate_remaining_time st p e).1.elapsed_time = st.elapsed_time := by
  simp only [calculate_remaining_time]; split_ifs <;> rfl

theorem crt_remaining_time (st : PrinterStatus) (p : Int) (e : ℚ) :
    (calculate_remaining_time st p e).1.remaining_time = st.remaining_time := by
  simp only [calculate_remaining_time]; split_ifs <;> rfl

theorem crt_filament_used (st : PrinterStatus) (p : Int) (e : ℚ) :
    (calculate_remaining_time st p e).1.filament_used = st.filament_used := by
  simp only [calculate_remaining_time]; split_ifs <;> rfl

theorem crt_filename (st : PrinterStatus) (p : Int) (e : ℚ) :
    (calculate_remaining_time st p e).1.filename = st.filename := by
  simp only [calculate_remaining_time]; split_ifs <;> rfl

theorem crt_bed_temp (st : PrinterStatus) (p : Int) (e : ℚ) :
    (calculate_remaining_time st p e).1.bed_temp = st.bed_temp := by
  simp only [calculate_remaining_time]; split_ifs <;> rfl

theorem crt_bed_target (st : PrinterStatus) (p : Int) (e : ℚ) :
    (calculate_remaining_time st p e).1.bed_target = st.bed_target := by
  simp only [calculate_remaining_time]; split_ifs <;> rfl

theorem crt_ext_temp (st : PrinterStatus) (p : Int) (e : ℚ) :
    (calculate_remaining_time st p e).1.ext_temp = st.ext_temp := by
  simp only [calculate_remaining_time]; split_ifs <;> rfl

theorem crt_ext_target (st : PrinterStatus) (p : Int) (e : ℚ) :
    (calculate_remaining_time st p e).1.ext_target = st.ext_target := by
  simp only [calculate_remaining_time]; split_ifs <;> rfl

theorem crt_fan_percent (st : PrinterStatus) (p : Int) (e : ℚ) :
    (calculate_remaining_time st p e).1.fan_percent = st.fan_percent := by
  simp only [calculate_remaining_time]; split_ifs <;> rfl

theorem crt_gcode_response (st : PrinterStatus) (p : Int) (e : ℚ) :
    (calculate_remaining_time st p e).1.gcode_response = st.gcode_response := by
  simp only [calculate_remaining_time]; split_ifs <;> rfl

/-- Whether an incoming value counts as a change for one field, in the
spec's words ("present and differs from the stored value"). -/
def fieldChanged {α : Type} [DecidableEq α] (old : α) (inc : Option α) : Bool :=
  match inc with
  | none => false
  | some v => decide (old ≠ v)

theorem update_status_field_fst {α : Type} [DecidableEq α] (old : α) (inc : Option α) :
    (update_status_field old inc).1 = inc.getD old := by
  cases inc with
  | none => rfl
  | some v =>
    by_cases h : old = v <;> simp [update_status_field, h]

theorem update_status_field_snd {α : Type} [DecidableEq α] (old : α) (inc : Option α) :
    (update_status_field old inc).2 = fieldChanged old inc := by
  cases inc with
  | none => rfl
  | some v =>
    by_cases h : old = v <;> simp [update_status_field, fieldChanged, h]

theorem step_state_fst_print_state (sd : JVal) (cb : ClientState × Bool) :
    (step_state sd cb).1.status.print_state = (stateOf sd).getD cb.1.status.print_state := by
  cases h : stateOf sd with
  | none => simp [step_state, h]
  | some ns =>
    by_cases hne : ns = cb.1.status.print_state <;>
      simp [step_state, h, hne, usm_print_state]

theorem step_state_snd (sd : JVal) (cb : ClientState × Bool) :
    (step_state sd cb).2 = (cb.2 || fieldChanged cb.1.status.print_state (stateOf sd)) := by
  cases h : stateOf sd with
  | none => simp [step_state, h, fieldChanged]
  | some ns =>
    by_cases hne : ns = cb.1.status.print_state
    · simp [step_state, h, hne, fieldChanged]
    · have hne2 : ¬cb.1.status.print_state = ns := fun hh => hne hh.symm
      simp [step_state, h, hne, fieldChanged, hne2]

theorem step_state_fst_progress_percent (sd : JVal) (cb : ClientState × Bool) :
    (step_state sd cb).1.status.progress_percent = cb.1.status.progress_percent := by
  cases h : stateOf sd with
  | none => simp [step_state, h]
  | some ns =>
    by_cases hne : ns = cb.1.status.print_state <;>
      simp [step_state, h, hne, usm_progress_percent]

theorem step_state_fst_elapsed_time (sd : JVal) (cb : ClientState × Bool) :
    (step_state sd cb).1.status.elapsed_time = cb.1.status.elapsed_time := by
  cases h : stateOf sd with
  | none => simp [step_state, h]
  | some ns =>
    by_cases hne : ns = cb.1.status.print_state <;>
      simp [step_state, h, hne, usm_elapsed_time]

theorem step_state_fst_filament_used (sd : JVal) (cb : ClientState × Bool) :
    (step_state sd cb).1.status.filament_used = cb.1.status.filament_used := by
  cases h : stateOf sd with
  | none => simp [step_state, h]
  | some ns =>
    by_cases hne : ns = cb.1.status.print_state <;>
      simp [step_state, h, hne, usm_filament_used]

theorem step_state_fst_filename (sd : JVal) (cb : ClientState × Bool) :
    (step_state sd cb).1.status.filename = cb.1.status.filename := by
  cases h : stateOf sd with
  | none => simp [step_state, h]
  | some ns =>
    by_cases hne : ns = cb.1.status.print_state <;>
      simp [step_state, h, hne, usm_filename]

theorem step_state_fst_bed_temp (sd : JVal) (cb : ClientState × Bool) :
    (step_state sd cb).1.status.bed_temp = cb.1.status.bed_temp := by
  cases h : stateOf sd with
  | none => simp [step_state, h]
  | some ns =>
    by_cases hne : ns = cb.1.status.print_state <;>
      simp [step_state, h, hne, usm_bed_temp]

theorem step_state_fst_bed_target (sd : JVal) (cb : ClientState × Bool) :
    (step_state sd cb).1.status.bed_target = cb.1.status.bed_target := by
  cases h : stateOf sd with
  | none => simp [step_state, h]
  | some ns =>
    by_cases hne : ns = cb.1.status.print_state <;>
      simp [step_state, h, hne, usm_bed_target]

theorem step_state_fst_ext_temp (sd : JVal) (cb : ClientState × Bool) :
    (step_state sd cb).1.status.ext_temp = cb.1.status.ext_temp := by
  cases h : stateOf sd with
  | none => simp [step_state, h]
  | some ns =>
    by_cases hne : ns = cb.1.status.print_state <;>
      simp [step_state, h, hne, usm_ext_temp]

theorem step_state_fst_ext_target (sd : JVal) (cb : ClientState × Bool) :
    (step_state sd cb).1.status.ext_target = cb.1.status.ext_target := by
  cases h : stateOf sd with
  | none => simp [step_state, h]
  | some ns =>
    by_cases hne : ns = cb.1.status.print_state <;>
      simp [step_state, h, hne, usm_ext_target]

theorem step_state_fst_fan_percent (sd : JVal) (cb : ClientState × Bool) :
    (step_state sd cb).1.status.fan_percent = cb.1.status.fan_percent := by
  cases h : stateOf sd with
  | none => simp [step_state, h]
  | some ns =>
    by_cases hne : ns = cb.1.status.print_state <;>
      simp [step_state, h, hne, usm_fan_percent]

theorem step_remaining_snd (cb : ClientState × Bool) :
    (step_remaining cb).2 = cb.2 := by
  simp only [step_remaining]; split_ifs <;> rfl

theorem step_remaining_fst_print_state (cb : ClientState × Bool) :
    (step_remaining cb).1.status.print_state = cb.1.status.print_state := by
  simp only [step_remaining]; split_ifs <;> simp [crt_print_state, crt_remaining_time]

theorem step_remaining_fst_progress_percent (cb : ClientState × Bool) :
    (step_remaining cb).1.status.progress_percent = cb.1.status.progress_percent := by
  simp only [step_remaining]; split_ifs <;> simp [crt_progress_percent, crt_remaining_time]

theorem step_remaining_fst_elapsed_time (cb : ClientState × Bool) :
    (step_remaining cb).1.status.elapsed_time = cb.1.status.elapsed_time := by
  simp only [step_remaining]; split_ifs <;> simp [crt_elapsed_time, crt_remaining_time]

theorem step_remaining_fst_filament_used (cb : ClientState × Bool) :
    (step_remaining cb).1.status.filament_used = cb.1.status.filament_used := by
  simp only [step_remaining]; split_ifs <;> simp [crt_filament_used, crt_remaining_time]

theorem step_remaining_fst_filename (cb : ClientState × Bool) :
    (step_remaining cb).1.status.filename = cb.1.status.filename := by
  simp only [step_remaining]; split_ifs <;> simp [crt_filename, crt_remaining_time]

theorem step_remaining_fst_bed_temp (cb : ClientState × Bool) :
    (step_remaining cb).1.status.bed_temp = cb.1.status.bed_temp := by
  simp only [step_remaining]; split_ifs <;> simp [crt_bed_temp, crt_remaining_time]

theorem step_remaining_fst_bed_target (cb : ClientState × Bool) :
    (step_remaining cb).1.status.bed_target = cb.1.status.bed_target := by
  simp only [step_remaining]; split_ifs <;> simp [crt_bed_target, crt_remaining_time]

theorem step_remaining_fst_ext_temp (cb : ClientState × Bool) :
    (step_remaining cb).1.status.ext_temp = cb.1.status.ext_temp := by
  simp only [step_remaining]; split_ifs <;> simp [crt_ext_temp, crt_remaining_time]

theorem step_remaining_fst_ext_target (cb : ClientState × Bool) :
    (step_remaining cb).1.status.ext_target = cb.1.status.ext_target := by
  simp only [step_remaining]; split_ifs <;> simp [crt_ext_target, crt_remaining_time]

theorem step_remaining_fst_fan_percent (cb : ClientState × Bool) :
    (step_remaining cb).1.status.fan_percent = cb.1.status.fan_percent := by
  simp only [step_remaining]; split_ifs <;> simp [crt_fan_percent, crt_remaining_time]

theorem afu_elapsed (inc : Option ℚ) (cb : ClientState × Bool) :
    apply_field_update (fun st => st.elapsed_time)
        (fun st v => { st with elapsed_time := v }) inc cb
      = ({ cb.1 with status :=
            { cb.1.status with elapsed_time := inc.getD cb.1.status.elapsed_time } },
         cb.2 || fieldChanged cb.1.status.elapsed_time inc) := by
  cases inc with
  | none => simp [apply_field_update, update_status_field, fieldChanged]
  | some v =>
    by_cases h : cb.1.status.elapsed_time = v <;>
      simp [apply_field_update, update_status_field, fieldChanged, h]

theorem afu_filament (inc : Option ℚ) (cb : ClientState × Bool) :
    apply_field_update (fun st => st.filament_used)
        (fun st v => { st with filament_used := v }) inc cb
      = ({ cb.1 with status :=
            { cb.1.status with filament_used := inc.getD cb.1.status.filament_used } },
         cb.2 || fieldChanged cb.1.status.filament_used inc) := by
  cases inc with
  | none => simp [apply_field_update, update_status_field, fieldChanged]
  | some v =>
    by_cases h : cb.1.status.filament_used = v <;>
      simp [apply_field_update, update_status_field, fieldChanged, h]

theorem afu_filename (inc : Option (Option String)) (cb : ClientState × Bool) :
    apply_field_update (fun st => st.filename)
        (fun st v => { st with filename := v }) inc cb
      = ({ cb.1 with status :=
            { cb.1.status with filename := inc.getD cb.1.status.filename } },
         cb.2 || fieldChanged cb.1.status.filename inc) := by
  cases inc with
  | none => simp [apply_field_update, update_status_field, fieldChanged]
  | some v =>
    by_cases h : cb.1.status.filename = v <;>
      simp [apply_field_update, update_status_field, fieldChanged, h]

theorem afu_bed_temp (inc : Option ℚ) (cb : ClientState × Bool) :
    apply_field_update (fun st => st.bed_temp)
        (fun st v => { st with bed_temp := v }) inc cb
      = ({ cb.1 with status :=
            { cb.1.status with bed_temp := inc.getD cb.1.status.bed_temp } },
         cb.2 || fieldChanged cb.1.status.bed_temp inc) := by
  cases inc with
  | none => simp [apply_field_update, update_status_field, fieldChanged]
  | some v =>
    by_cases h : cb.1.status.bed_temp = v <;>
      simp [apply_field_update, update_status_field, fieldChanged, h]

theorem afu_bed_target (inc : Option ℚ) (cb : ClientState × Bool) :
    apply_field_update (fun st => st.bed_target)
        (fun st v => { st with bed_target := v }) inc cb
      = ({ cb.1 with status :=
            { cb.1.status with bed_target := inc.getD cb.1.status.bed_target } },
         cb.2 || fieldChanged cb.1.status.bed_target inc) := by
  cases inc with
  | none => simp [apply_field_update, update_status_field, fieldChanged]
  | some v =>
    by_cases h : cb.1.status.bed_target = v <;>
      simp [apply_field_update, update_status_field, fieldChanged, h]

theorem afu_ext_temp (inc : Option ℚ) (cb : ClientState × Bool) :
    apply_field_update (fun st => st.ext_temp)
        (fun st v => { st with ext_temp := v }) inc cb
      = ({ cb.1 with status :=
            { cb.1.status with ext_temp := inc.getD cb.1.status.ext_temp } },
         cb.2 || fieldChanged cb.1.status.ext_temp inc) := by
  cases inc with
  | none => simp [apply_field_update, update_status_field, fieldChanged]
  | some v =>
    by_cases h : cb.1.status.ext_temp = v <;>
      simp [apply_field_update, update_status_field, fieldChanged, h]

theorem afu_ext_target (inc : Option ℚ) (cb : ClientState × Bool) :
    apply_field_update (fun st => st.ext_target)
        (fun st v => { st with ext_target := v }) inc cb
      = ({ cb.1 with status :=
            { cb.1.status with ext_target := inc.getD cb.1.status.ext_target } },
         cb.2 || fieldChanged cb.1.status.ext_target inc) := by
  cases inc with
  | none => simp [apply_field_update, update_status_field, fieldChanged]
  | some v =>
    by_cases h : cb.1.status.ext_target = v <;>
      simp [apply_field_update, update_status_field, fieldChanged, h]

/-- The converted incoming percent `int(progress * 100)` (ws_client.py
lines 235–236), `none` when no progress fraction is in the payload. -/
def incProgress (sd : JVal) : Option Int :=
  (progressOf sd).map fun p => pyInt (p * 100)

/-- The converted incoming fan percent `round(speed * 100, 1)` (ws_client.py
lines 270–271), `none` when no fan speed is in the payload. -/
def incFan (sd : JVal) : Option ℚ :=
  (fanSpeedOf sd).map fun f => pyRound1 (f * 100)

/-- The incoming filename viewed as a value for the `Optional[str]` field:
present exactly when the payload carries one. -/
def incFilename (sd : JVal) : Option (Option String) :=
  (filenameOf sd).map some

theorem step_progress_spec (sd : JVal) (cb : ClientState × Bool) :
    step_progress sd cb
      = ({ cb.1 with status :=
            { cb.1.status with progress_percent :=
                (incProgress sd).getD cb.1.status.progress_percent } },
         cb.2 || fieldChanged cb.1.status.progress_percent (incProgress sd)) := by
  cases h : progressOf sd with
  | none => simp [step_progress, h, fieldChanged, incProgress]
  | some p =>
    by_cases hv : cb.1.status.progress_percent = pyInt (p * 100) <;>
      simp [step_progress, h, hv, apply_field_update, update_status_field,
        fieldChanged, incProgress]

theorem step_fan_spec (sd : JVal) (cb : ClientState × Bool) :
    step_fan sd cb
      = ({ cb.1 with status :=
            { cb.1.status with fan_percent :=
                (incFan sd).getD cb.1.status.fan_percent } },
         cb.2 || fieldChanged cb.1.status.fan_percent (incFan sd)) := by
  cases h : fanSpeedOf sd with
  | none => simp [step_fan, h, fieldChanged, incFan]
  | some f =>
    by_cases hv : cb.1.status.fan_percent = pyRound1 (f * 100) <;>
      simp [step_fan, h, hv, apply_field_update, update_status_field,
        fieldChanged, incFan]

/-- The spec-side "did anything change" signal (from the spec's words, for
comparison with the code's flag): some tracked non-derived field has an
incoming value that is present and differs from the stored one. -/
def specChangedSignal (c : ClientState) (sd : JVal) : Bool :=
  fieldChanged c.status.print_state (stateOf sd)
  || fieldChanged c.status.progress_percent (incProgress sd)
  || fieldChanged c.status.elapsed_time (elapsedOf sd)
  || fieldChanged c.status.filament_used (filamentOf sd)
  || fieldChanged c.status.filename (incFilename sd)
  || fieldChanged c.status.bed_temp (bedTempOf sd)
  || fieldChanged c.status.bed_target (bedTargetOf sd)
  || fieldChanged c.status.ext_temp (extTempOf sd)
  || fieldChanged c.status.ext_target (extTargetOf sd)
  || fieldChanged c.status.fan_percent (incFan sd)

/-- Full characterisation of `_extract_status_from_message` on the
non-derived fields: each one ends up at the incoming value when present
and at the stored value otherwise, and the returned `changed` flag is
exactly the "some field present and different" signal. -/
theorem extract_spec (c : ClientState) (sd : JVal) :
    (extract_status_from_message c sd).1.status.print_state
      = (stateOf sd).getD c.status.print_state ∧
    (extract_status_from_message c sd).1.status.progress_percent
      = (incProgress sd).getD c.status.progress_percent ∧
    (extract_status_from_message c sd).1.status.elapsed_time
      = (elapsedOf sd).getD c.status.elapsed_time ∧
    (extract_status_from_message c sd).1.status.filament_used
      = (filamentOf sd).getD c.status.filament_used ∧
    (extract_status_from_message c sd).1.status.filename
      = (incFilename sd).getD c.status.filename ∧
    (extract_status_from_message c sd).1.status.bed_temp
      = (bedTempOf sd).getD c.status.bed_temp ∧
    (extract_status_from_message c sd).1.status.bed_target
      = (bedTargetOf sd).getD c.status.bed_target ∧
    (extract_status_from_message c sd).1.status.ext_temp
      = (extTempOf sd).getD c.status.ext_temp ∧
    (extract_status_from_message c sd).1.status.ext_target
      = (extTargetOf sd).getD c.status.ext_target ∧
    (extract_status_from_message c sd).1.status.fan_percent
      = (incFan sd).getD c.status.fan_percent ∧
    (extract_status_from_message c sd).2 = specChangedSignal c sd := by
  have hfn : (filenameOf sd).map some = incFilename sd := rfl
  refine ⟨?_, ?_, ?_, ?_, ?_, ?_, ?_, ?_, ?_, ?_, ?_⟩ <;>
    simp only [extract_status_from_message, hfn, step_progress_spec, afu_elapsed,
      afu_filament, afu_filename, afu_bed_temp, afu_bed_target, afu_ext_temp,
      afu_ext_target, step_fan_spec, specChangedSignal,
      step_remaining_fst_print_state, step_remaining_fst_progress_percent,
      step_remaining_fst_elapsed_time, step_remaining_fst_filament_used,
      step_remaining_fst_filename, step_remaining_fst_bed_temp,
      step_remaining_fst_bed_target, step_remaining_fst_ext_temp,
      step_remaining_fst_ext_target, step_remaining_fst_fan_percent,
      step_remaining_snd, step_state_fst_print_state,
      step_state_fst_progress_percent, step_state_fst_elapsed_time,
      step_state_fst_filament_used, step_state_fst_filename,
      step_state_fst_bed_temp, step_state_fst_bed_target,
      step_state_fst_ext_temp, step_state_fst_ext_target,
      step_state_fst_fan_percent, step_state_snd, Bool.false_or]

theorem step_state_fst_gcode_response (sd : JVal) (cb : ClientState × Bool) :
    (step_state sd cb).1.status.gcode_response = cb.1.status.gcode_response := by
  cases h : stateOf sd with
  | none => simp [step_state, h]
  | some ns =>
    by_cases hne : ns = cb.1.status.print_state <;>
      simp [step_state, h, hne, usm_gcode_response]

theorem step_remaining_fst_gcode_response (cb : ClientState × Bool) :
    (step_remaining cb).1.status.gcode_response = cb.1.status.gcode_response := by
  simp only [step_remaining]; split_ifs <;> simp [crt_gcode_response, crt_remaining_time]

/-- `_extract_status_from_message` never touches the mirrored
`gcode_response` field — only the mailbox operations do. -/
theorem extract_gcode_response (c : ClientState) (sd : JVal) :
    (extract_status_from_message c sd).1.status.gcode_response
      = c.status.gcode_response := by
  simp only [extract_status_from_message, step_progress_spec, afu_elapsed,
    afu_filament, afu_filename, afu_bed_temp, afu_bed_target, afu_ext_temp,
    afu_ext_target, step_fan_spec, step_remaining_fst_gcode_response,
    step_state_fst_gcode_response]

/-! ## C5: field written iff incoming value present and different -/

/-- C5: applying a partial status update writes each non-derived field iff
the incoming value for it is present and differs — the final value of each
field is the incoming value when present and the stored value otherwise
(so unknown or missing keys change nothing) — and the returned `changed`
flag is true iff some field had a present, differing incoming value. -/
theorem status_update_written_iff_changed (c : ClientState) (sd : JVal) :
    (extract_status_from_message c sd).1.status.print_state
      = (stateOf sd).getD c.status.print_state ∧
    (extract_status_from_message c sd).1.status.progress_percent
      = (incProgress sd).getD c.status.progress_percent ∧
    (extract_status_from_message c sd).1.status.elapsed_time
      = (elapsedOf sd).getD c.status.elapsed_time ∧
    (extract_status_from_message c sd).1.status.filament_used
      = (filamentOf sd).getD c.status.filament_used ∧
    (extract_status_from_message c sd).1.status.filename
      = (incFilename sd).getD c.status.filename ∧
    (extract_status_from_message c sd).1.status.bed_temp
      = (bedTempOf sd).getD c.status.bed_temp ∧
    (extract_status_from_message c sd).1.status.bed_target
      = (bedTargetOf sd).getD c.status.bed_target ∧
    (extract_status_from_message c sd).1.status.ext_temp
      = (extTempOf sd).getD c.status.ext_temp ∧
    (extract_status_from_message c sd).1.status.ext_target
      = (extTargetOf sd).getD c.status.ext_target ∧
    (extract_status_from_message c sd).1.status.fan_percent
      = (incFan sd).getD c.status.fan_percent ∧
    (extract_status_from_message c sd).2 = specChangedSignal c sd :=
  extract_spec c sd

/-! ## C9: boundary conversion of fractions to percentages (corrected) -/

/-- The fan-only payload `{fan: {speed: 0.125}}`. -/
def fanMsgCE : JVal := JVal.dict [("fan", JVal.dict [("speed", JVal.num (1 / 8))])]

/-- Counterexample to C9 as stated: the inbound fan speed 1/8 lies in
[0,1], yet the stored `fan_percent` is 25/2 = 12.5 — `round(speed*100, 1)`
keeps one decimal digit, so the stored value has denominator 2 and is not
a whole number. -/
theorem fan_percent_not_whole :
    (0 ≤ (1 / 8 : ℚ) ∧ (1 / 8 : ℚ) ≤ 1) ∧
    fanSpeedOf fanMsgCE = some (1 / 8 : ℚ) ∧
    (extract_status_from_message initClient fanMsgCE).1.status.fan_percent = 25 / 2 ∧
    ((extract_status_from_message initClient fanMsgCE).1.status.fan_percent).den ≠ 1 := by
  have hf : fanSpeedOf fanMsgCE = some (1 / 8 : ℚ) := by
    simp [fanSpeedOf, fanMsgCE, get_nested_value, dictGet, asNum]
  have hfan : (extract_status_from_message initClient fanMsgCE).1.status.fan_percent
      = 25 / 2 := by
    rw [(extract_spec initClient fanMsgCE).2.2.2.2.2.2.2.2.2.1]
    simp [incFan, hf, initClient]
    norm_num [pyRound1, roundHalfEven]
  exact ⟨by norm_num, hf, hfan, by rw [hfan]; norm_num⟩

theorem floor_le_roundHalfEven (q : ℚ) : ⌊q⌋ ≤ roundHalfEven q := by
  unfold roundHalfEven; split_ifs <;> omega

theorem roundHalfEven_le_ceil (q : ℚ) : roundHalfEven q ≤ ⌈q⌉ := by
  have h0 : ⌊q⌋ ≤ ⌈q⌉ := Int.floor_le_ceil q
  have hlt : ¬(q - ⌊q⌋ < 1 / 2) → ⌊q⌋ + 1 ≤ ⌈q⌉ := by
    intro h
    have hq : (⌊q⌋ : ℚ) < q := by
      have : (1 : ℚ) / 2 ≤ q - ⌊q⌋ := not_lt.mp h
      linarith
    have := Int.lt_ceil.mpr hq
    omega
  unfold roundHalfEven
  split_ifs with h1 h2 h3
  · exact h0
  · exact hlt (by linarith)
  · exact h0
  · exact hlt h1

/-- C9 amended: two independent guarantees, one per fraction, each
applying to any partial update that carries that fraction (the other may
be absent).  Whenever the inbound progress fraction is present and lies in
[0,1], the stored `progress_percent` is an integer between 0 and 100 as
claimed; whenever the inbound fan fraction is present and lies in [0,1],
the stored `fan_percent` lies in [0,100] and is a multiple of 1/10 (one
decimal digit), but need not be a whole number. -/
theorem percent_conversion_bounds (c : ClientState) (sd : JVal) :
    (∀ p : ℚ, progressOf sd = some p → 0 ≤ p → p ≤ 1 →
      0 ≤ (extract_status_from_message c sd).1.status.progress_percent ∧
      (extract_status_from_message c sd).1.status.progress_percent ≤ 100) ∧
    (∀ f : ℚ, fanSpeedOf sd = some f → 0 ≤ f → f ≤ 1 →
      0 ≤ (extract_status_from_message c sd).1.status.fan_percent ∧
      (extract_status_from_message c sd).1.status.fan_percent ≤ 100 ∧
      (10 * (extract_status_from_message c sd).1.status.fan_percent).den = 1) := by
  constructor
  · intro p hp hp0 hp1
    have hprog : (extract_status_from_message c sd).1.status.progress_percent
        = pyInt (p * 100) := by
      rw [(extract_spec c sd).2.1]; simp [incProgress, hp]
    have hp100 : (0 : ℚ) ≤ p * 100 := by positivity
    have hpyInt : pyInt (p * 100) = ⌊p * 100⌋ := by simp [pyInt, hp100]
    constructor
    · rw [hprog, hpyInt]
      exact Int.floor_nonneg.mpr hp100
    · rw [hprog, hpyInt]
      have : ⌊p * 100⌋ ≤ ⌊(100 : ℚ)⌋ := Int.floor_le_floor (by nlinarith)
      simpa using this
  · intro f hf hf0 hf1
    have hfan : (extract_status_from_message c sd).1.status.fan_percent
        = pyRound1 (f * 100) := by
      rw [(extract_spec c sd).2.2.2.2.2.2.2.2.2.1]; simp [incFan, hf]
    have h10 : (0 : ℚ) ≤ 10 * (f * 100) := by positivity
    have hrhe0 : 0 ≤ roundHalfEven (10 * (f * 100)) := by
      have := floor_le_roundHalfEven (10 * (f * 100))
      have h0 : 0 ≤ ⌊10 * (f * 100)⌋ := Int.floor_nonneg.mpr h10
      omega
    have hrhe1000 : roundHalfEven (10 * (f * 100)) ≤ 1000 := by
      have hle := roundHalfEven_le_ceil (10 * (f * 100))
      have hc : ⌈10 * (f * 100)⌉ ≤ 1000 := by
        rw [Int.ceil_le]
        push_cast
        nlinarith
      omega
    refine ⟨?_, ?_, ?_⟩
    · rw [hfan]
      unfold pyRound1
      positivity
    · rw [hfan]
      unfold pyRound1
      rw [div_le_iff₀ (by norm_num : (0 : ℚ) < 10)]
      calc (roundHalfEven (10 * (f * 100)) : ℚ) ≤ (1000 : ℚ) := by exact_mod_cast hrhe1000
      _ = 100 * 10 := by norm_num
    · rw [hfan]
      unfold pyRound1
      rw [show (10 : ℚ) * ((roundHalfEven (10 * (f * 100)) : ℚ) / 10)
          = ((roundHalfEven (10 * (f * 100)) : ℤ) : ℚ) from by ring]
      exact Rat.den_intCast _

/-- The progress-only payload `{print_stats: {progress: 0.5}}`. -/
def progMsgW : JVal :=
  JVal.dict [("print_stats", JVal.dict [("progress", JVal.num (1 / 2))])]

/-- Witness for C9's amended theorem, exercising both parts on partial
updates that carry only one fraction each: a progress-only payload with
fraction 1/2 yields an in-range integer percent, and the fan-only payload
with speed 1/8 yields an in-range `fan_percent` that is a multiple of
1/10. -/
theorem percent_conversion_bounds_witness :
    progressOf progMsgW = some (1 / 2 : ℚ) ∧
    fanSpeedOf fanMsgCE = some (1 / 8 : ℚ) ∧
    (0 ≤ (extract_status_from_message initClient progMsgW).1.status.progress_percent ∧
     (extract_status_from_message initClient progMsgW).1.status.progress_percent ≤ 100) ∧
    (0 ≤ (extract_status_from_message initClient fanMsgCE).1.status.fan_percent ∧
     (extract_status_from_message initClient fanMsgCE).1.status.fan_percent ≤ 100 ∧
     (10 * (extract_status_from_message initClient fanMsgCE).1.status.fan_percent).den = 1) := by
  have hp : progressOf progMsgW = some (1 / 2 : ℚ) := by
    simp [progressOf, progMsgW, get_nested_value, dictGet, asNum]
  have hf : fanSpeedOf fanMsgCE = some (1 / 8 : ℚ) := by
    simp [fanSpeedOf, fanMsgCE, get_nested_value, dictGet, asNum]
  exact ⟨hp, hf,
    (percent_conversion_bounds initClient progMsgW).1 (1 / 2) hp (by norm_num) (by norm_num),
    (percent_conversion_bounds initClient fanMsgCE).2 (1 / 8) hf (by norm_num) (by norm_num)⟩

/-! ## C10: `None` never resets a field; only stop / full restart do -/

/-- C10: a `None` incoming value leaves any field unchanged and reports no
change; a partial update can never reset the optional `filename` back to
`None` (it ends `None` only if it already was) and never touches the
optional `gcode_response`; the resets inside `stop` and `full_restart` are
what returns the record to its defaults. -/
theorem none_incoming_never_resets (c : ClientState) (sd : JVal) (m : MailboxState) :
    (∀ (α : Type) (inst : DecidableEq α) (old : α),
      @update_status_field α inst old none = (old, false)) ∧
    ((extract_status_from_message c sd).1.status.filename = none →
      c.status.filename = none) ∧
    (extract_status_from_message c sd).1.status.gcode_response
      = c.status.gcode_response ∧
    (stop_reset c).status = ({} : PrinterStatus) ∧
    (full_restart_reset c m).1.status = ({} : PrinterStatus) ∧
    (full_restart_reset c m).2 = ({} : MailboxState) := by
  refine ⟨fun α inst old => rfl, ?_, extract_gcode_response c sd, rfl, rfl, rfl⟩
  intro h
  have hv := (extract_spec c sd).2.2.2.2.1
  rw [h] at hv
  cases hinc : incFilename sd with
  | none => rw [hinc] at hv; simpa using hv.symm
  | some v =>
    rw [hinc] at hv
    cases hv' : v with
    | none =>
      subst hv'
      cases hfn : filenameOf sd with
      | none => simp [incFilename, hfn] at hinc
      | some s => simp [incFilename, hfn] at hinc
    | some s => simp [hv'] at hv

/-- Witness for C10: on the fan-only payload the filename stays `None`
from the initial state (discharging the implication), and a set filename
is untouched by a `None` incoming value. -/
theorem none_incoming_never_resets_witness :
    (extract_status_from_message initClient fanMsgCE).1.status.filename = none ∧
    initClient.status.filename = none ∧
    update_status_field (some "a.gcode") (none : Option (Option String))
      = (some "a.gcode", false) := by
  have h : (extract_status_from_message initClient fanMsgCE).1.status.filename = none := by
    rw [(extract_spec initClient fanMsgCE).2.2.2.2.1]
    simp [incFilename, filenameOf, fanMsgCE, get_nested_value, dictGet, asStr, initClient]
  exact ⟨h, (none_incoming_never_resets initClient fanMsgCE {}).2.1 h,
    (none_incoming_never_resets initClient fanMsgCE {}).1 _ _ _⟩

end KVM
